import Mathlib

/-!
Verification of the dvote-js gateway transport core.

This file gives a shallow embedding, in Lean 4, of the request/response and
failover logic of the dvote-js repository:

* `src/net/gateway-pool.ts` — the `GatewayPool` failover state machine
  (`refresh`, `shiftGateway`, `connect`, `sendRequest`, `isMethodSupported`);
* `src/net/gateway.ts` — the `DVoteGateway` transport (correlation-id
  generation in `sendMessage`, the pending-request list and its timeout
  handling together with `gotWebSocketMessage`, `checkPing`, and the
  timestamp attachment performed on the caller's request body);
* the JSON canonicalization/signing contract of `util/json-sign.ts`
  (modelled from the spec, as that module's source is not part of the
  snapshot).

JavaScript promises that either resolve or reject are embedded as
`Except String α` values (the `String` is the error message); the mutable
fields of the classes become explicit state records; the asynchronous
recursion of the pool (rotate / refresh / retry) is made total with an
explicit fuel argument, the fuel-exhaustion marker being an error value that
the theorems exclude by supplying enough fuel.
-/

namespace DvoteJs

/-- Leading-match test on character lists: does the second list start the
first one?  Helper for `strIncludes`. -/
def leadMatch : List Char → List Char → Bool
  | _, [] => true
  | [], _ :: _ => false
  | h :: hs, p :: ps => h == p && leadMatch hs ps

/-- Occurrence test: does the pattern `pat` occur, contiguously, anywhere in
the haystack?  Helper for `strIncludes`. -/
def subMatch (pat : List Char) : List Char → Bool
  | [] => leadMatch [] pat
  | h :: t => leadMatch (h :: t) pat || subMatch pat t

/-- JavaScript's `String.prototype.includes`: `strIncludes s pat` is true
exactly when `pat` occurs as a contiguous substring of `s`. -/
def strIncludes (s pat : String) : Bool :=
  subMatch pat.data s.data

/-! ## The gateway pool (src/net/gateway-pool.ts)

A `Gateway` element of the pool is consumed by `GatewayPool` only through
`getSupportedApis()`, `isConnected()`, `connect()`, `disconnect()` and
`sendRequest(body, wallet, timeout)`.  We embed it as a record of oracles
giving the outcome of each of those calls; `disconnect()` has no effect the
pool ever observes, so it carries no field.  The response payload a gateway
returns is abstracted to a `Nat`; the pool forwards it unchanged. -/

/-- The request body as seen by the pool: `GatewayPool.sendRequest` reads
only `body.method` and forwards the body itself unchanged. -/
structure PoolReq where
  method : String
deriving DecidableEq

/-- One `Gateway` of the pool, embedded as the outcomes of the calls the
pool makes on it. -/
structure PoolGateway where
  /-- `getSupportedApis()`. -/
  supportedApis : List String
  /-- Outcome of `isConnected()`. -/
  isConnectedR : Except String Bool
  /-- Outcome of `connect()`. -/
  connectR : Except String Bool
  /-- Outcome of `sendRequest(body, ...)` for each body. -/
  sendRequestR : PoolReq → Except String Nat

/-- `SEQUENTIAL_METHODS` of src/net/gateway-pool.ts line 7. -/
def SEQUENTIAL_METHODS : List String := ["addClaimBulk", "publishCensus"]

/-- `ERROR_SKIP_METHODS` of src/net/gateway-pool.ts line 8. -/
def ERROR_SKIP_METHODS : List String := ["getRoot"]

/-- `GATEWAY_UPDATE_ERRORS` of src/net/gateway-pool.ts lines 9-13. -/
def GATEWAY_UPDATE_ERRORS : List String :=
  ["Request timed out", "read ECONNRESET", "censusId not valid or not found"]

/-- `MAX_POOL_REFRESH_COUNT` of src/net/gateway-pool.ts line 14. -/
def MAX_POOL_REFRESH_COUNT : Nat := 10

/-- The mutable fields of a `GatewayPool` instance. -/
structure PoolState where
  pool : List PoolGateway
  errorCount : Nat
  refreshPoolCount : Nat

/-- `isMethodSupported(supportedApis, method)` of src/net/gateway-pool.ts
lines 181-186.  The table `dvoteApis` lives in src/models/gateway.ts, which
is outside the snapshot, so it is a parameter `dv` here: the function
returns true iff some advertised API category contains the method. -/
def isMethodSupported (dv : String → List String) (supportedApis : List String)
    (method : String) : Bool :=
  supportedApis.any (fun api => (dv api).contains method)

/-- `GatewayPool.activeGateway()` (src/net/gateway-pool.ts lines 90-93):
the head of the pool, with a synchronous throw when the pool is empty. -/
def activeGateway (s : PoolState) : Except String PoolGateway :=
  match s.pool with
  | [] => .error "The pool has no gateways"
  | g :: _ => .ok g

/-- `this.pool.push(this.pool.shift())`: rotate the head to the tail. -/
def rotate {α : Type} : List α → List α
  | [] => []
  | x :: xs => xs ++ [x]

/-- Fuel-exhaustion marker; the theorems below always provide enough fuel
for it never to be produced. -/
def outOfFuel : String := "out of fuel"

mutual

/-- `GatewayPool.refresh()` (src/net/gateway-pool.ts lines 52-66).
`d` is the outcome of `discoverGateways(this.params)` (gateway discovery is
an external collaborator).  The method first increments
`refreshPoolCount`; if the new value exceeds `MAX_POOL_REFRESH_COUNT` it
rejects with "No gateway currently available" without running discovery;
otherwise it replaces the pool with the discovered nodes, connects, and on
success resets `errorCount` to 0 and resolves `true`. -/
def refresh (d : Except String (List PoolGateway)) :
    Nat → PoolState → Except String Bool × PoolState
  | 0, s => (.error outOfFuel, s)
  | fuel + 1, s =>
    let s1 : PoolState := { s with refreshPoolCount := s.refreshPoolCount + 1 }
    if s1.refreshPoolCount > MAX_POOL_REFRESH_COUNT then
      (.error "No gateway currently available", s1)
    else
      match d with
      | .error e => (.error e, s1)
      | .ok bestNodes =>
        let s2 : PoolState := { s1 with pool := bestNodes }
        match connect d fuel s2 with
        | (.ok _, s3) => (.ok true, { s3 with errorCount := 0 })
        | (.error e, s3) => (.error e, s3)

/-- `GatewayPool.connect()` (src/net/gateway-pool.ts lines 95-103): ask the
active gateway `isConnected()`; if already connected resolve `true`,
otherwise resolve with the outcome of its `connect()`; any rejection along
that chain is caught and answered by `shiftGateway()`.  The synchronous
throw of `activeGateway()` on an empty pool escapes uncaught. -/
def connect (d : Except String (List PoolGateway)) :
    Nat → PoolState → Except String Bool × PoolState
  | 0, s => (.error outOfFuel, s)
  | fuel + 1, s =>
    match activeGateway s with
    | .error e => (.error e, s)
    | .ok g =>
      let attempt : Except String Bool :=
        match g.isConnectedR with
        | .ok true => .ok true
        | .ok false => g.connectR
        | .error e => .error e
      match attempt with
      | .ok b => (.ok b, s)
      | .error _ => shiftGateway d fuel s

/-- `GatewayPool.shiftGateway()` (src/net/gateway-pool.ts lines 71-88):
disconnect the head (a synchronous throw if the pool is empty); if
`errorCount` exceeds the pool length, `refresh()` instead of rotating;
otherwise rotate the head to the tail and `connect()`; if that rejects,
increment `errorCount` and shift again. -/
def shiftGateway (d : Except String (List PoolGateway)) :
    Nat → PoolState → Except String Bool × PoolState
  | 0, s => (.error outOfFuel, s)
  | fuel + 1, s =>
    match activeGateway s with
    | .error e => (.error e, s)
    | .ok _ =>
      if s.errorCount > s.pool.length then
        refresh d fuel s
      else
        let s1 : PoolState := { s with pool := rotate s.pool }
        match connect d fuel s1 with
        | (.ok _, s2) => (.ok true, s2)
        | (.error _, s2) => shiftGateway d fuel { s2 with errorCount := s2.errorCount + 1 }

end

/-- `GatewayPool.sendRequest(requestBody, wallet, timeout)`
(src/net/gateway-pool.ts lines 119-158).  If the active gateway does not
support `body.method`: increment `errorCount`, shift, retry.  Otherwise
delegate to the active gateway; on success reset both counters and return
the response; on failure, propagate unchanged for skip-listed methods, wrap
fatally for sequential methods, and for messages matching a
`GATEWAY_UPDATE_ERRORS` pattern increment `errorCount`, shift and retry;
any other failure propagates unchanged. -/
def sendRequest (d : Except String (List PoolGateway)) (dv : String → List String) :
    Nat → PoolReq → PoolState → Except String Nat × PoolState
  | 0, _, s => (.error outOfFuel, s)
  | fuel + 1, body, s =>
    match activeGateway s with
    | .error e => (.error e, s)
    | .ok g =>
      if !(isMethodSupported dv g.supportedApis body.method) then
        let s1 : PoolState := { s with errorCount := s.errorCount + 1 }
        match shiftGateway d fuel s1 with
        | (.error e, s2) => (.error e, s2)
        | (.ok _, s2) => sendRequest d dv fuel body s2
      else
        match g.sendRequestR body with
        | .ok response => (.ok response, { s with errorCount := 0, refreshPoolCount := 0 })
        | .error err =>
          if ERROR_SKIP_METHODS.contains body.method then
            (.error err, s)
          else if SEQUENTIAL_METHODS.contains body.method then
            (.error ("Connection to gateway lost. The process needs to be reinitiated. Reason:" ++ err), s)
          else if GATEWAY_UPDATE_ERRORS.any (fun msg => strIncludes err msg) then
            let s1 : PoolState := { s with errorCount := s.errorCount + 1 }
            match shiftGateway d fuel s1 with
            | (.error e, s2) => (.error e, s2)
            | (.ok _, s2) => sendRequest d dv fuel body s2
          else (.error err, s)

/-! ## DVoteGateway: correlation-id generation (src/net/gateway.ts lines 235-240)

```
let rand, requestId
do {
    rand = Math.random().toString(16).split('.')[1]
    requestId = utils.keccak256('0x' + rand).substr(2)
} while (this.requestList.some(r => r.id === rand))
```

`keccak` below models the derivation `rand => utils.keccak256('0x' + rand).substr(2)`
(a fixed deterministic function), `rands` the successive draws of
`Math.random().toString(16).split('.')[1]`, and `pendingIds` the ids of the
entries of `this.requestList`.  Note that the loop guard compares the
pending ids against `rand`, not against the derived `requestId`. -/

/-- The do-while loop of `DVoteGateway.sendMessage` that picks the
correlation id: draw `rand`, derive `requestId = keccak rand`, and repeat
while some pending id equals `rand`.  Returns `none` when the draw stream
is exhausted (never the case for the real infinite stream). -/
def generateRequestId (keccak : String → String) (pendingIds : List String) :
    List String → Option String
  | [] => none
  | rand :: rest =>
    if pendingIds.contains rand then generateRequestId keccak pendingIds rest
    else some (keccak rand)

/-- Modelled from the spec: "Generate a correlation ID unique among
currently pending requests on this transport (collision retried by
regeneration, not rejected)" — the guard compares the pending ids against
the freshly derived id itself.  This is the behaviour the spec describes,
stated for comparison with `generateRequestId` above. -/
def specGenerateRequestId (keccak : String → String) (pendingIds : List String) :
    List String → Option String
  | [] => none
  | rand :: rest =>
    if pendingIds.contains (keccak rand) then specGenerateRequestId keccak pendingIds rest
    else some (keccak rand)

/-! ## DVoteGateway: pending requests and timeouts (src/net/gateway.ts)

The `requestList` field tracks the in-flight requests by correlation id,
and each `sendMessage` call creates one promise that the timeout callback
(lines 255-259) may reject and `gotWebSocketMessage` (lines 401-426) may
resolve.  A JavaScript promise settles at most once: later `resolve` /
`reject` calls are no-ops.  We model the connection's observable state as
the list of pending ids plus the settlement state of each request's
promise. -/

/-- Settlement state of one `sendMessage` promise. -/
inductive PromiseSt where
  /-- Neither `resolve` nor `reject` has run yet. -/
  | pending
  /-- `resolve(response)` ran first. -/
  | resolved
  /-- `reject(new Error(msg))` ran first. -/
  | rejected (msg : String)
deriving DecidableEq

/-- Observable state of one web-socket connection: the correlation ids of
`this.requestList`, and each request's promise state, keyed by id. -/
structure WsConn where
  requestList : List String
  promises : List (String × PromiseSt)
deriving DecidableEq

/-- Settle-once semantics of a JavaScript promise: a later outcome is
dropped when the promise is already settled. -/
def settle (p : PromiseSt) (outcome : PromiseSt) : PromiseSt :=
  match p with
  | .pending => outcome
  | .resolved => .resolved
  | .rejected m => .rejected m

/-- Apply an outcome to the promise registered under `rid`. -/
def settleAt (ps : List (String × PromiseSt)) (rid : String) (outcome : PromiseSt) :
    List (String × PromiseSt) :=
  ps.map (fun kv => if kv.1 = rid then (kv.1, settle kv.2 outcome) else kv)

/-- The timeout callback registered in `sendMessage` (src/net/gateway.ts
lines 255-259): `reject(new Error("Request timed out"))`, then
`this.requestList = this.requestList.filter(r => r.id != requestId)`. -/
def fireTimeout (c : WsConn) (rid : String) : WsConn :=
  { requestList := c.requestList.filter (fun r => r != rid),
    promises := settleAt c.promises rid (.rejected "Request timed out") }

/-- `DVoteGateway.gotWebSocketMessage` (src/net/gateway.ts lines 401-426)
at the point where the incoming response parsed with `response.id = rid`:
look the id up in `this.requestList`; if absent, return ("it may have timed
out"); otherwise clear the timer, remove the entry and resolve the
request's promise with the response. -/
def gotWebSocketMessage (c : WsConn) (rid : String) : WsConn :=
  match c.requestList.find? (fun r => r == rid) with
  | none => c
  | some _ =>
    { requestList := c.requestList.filter (fun r => r != rid),
      promises := settleAt c.promises rid .resolved }

/-! ## DVoteGateway.checkPing (src/net/gateway.ts lines 364-393) -/

/-- Outcome of one `axios.get(pingUrl)` call: either the promise resolved
with a status and a body, or it rejected (network error and the like). -/
inductive HttpAttempt where
  | ok (status : Nat) (data : String)
  | thrown
deriving DecidableEq

/-- The success test `response != null && response.status === 200 &&
response.data === "pong"` applied to an attempt's outcome. -/
def isPongResponse : HttpAttempt → Bool
  | .ok status data => status == 200 && data == "pong"
  | .thrown => false

/-- `DVoteGateway.checkPing` (src/net/gateway.ts lines 364-393) as a
function of the outcomes of its two possible probes: `httpsAttempt` is the
GET of `https://host[:port]/ping`, `httpAttempt` the GET of
`http://host[:port]/ping`.  The https probe runs first; when it resolves
with 200/"pong" the result is `true` without a second probe; when it
resolves otherwise, the plain-http probe decides; when either executed
probe throws, the surrounding try/catch returns `false`. -/
def checkPing (httpsAttempt httpAttempt : HttpAttempt) : Bool :=
  match httpsAttempt with
  | .thrown => false
  | .ok status data =>
    if isPongResponse (.ok status data) then true
    else
      match httpAttempt with
      | .thrown => false
      | .ok status2 data2 => isPongResponse (.ok status2 data2)

/-- Whether `checkPing` reaches the plain-http fallback GET: only when the
https probe resolved and was not a 200/"pong" success. -/
def httpFallbackTried (httpsAttempt : HttpAttempt) : Bool :=
  match httpsAttempt with
  | .thrown => false
  | .ok status data => !(isPongResponse (.ok status data))

/-! ## DVoteGateway.sendMessage: timestamp attachment (src/net/gateway.ts lines 231-234)

```
if (typeof requestBody.timestamp == "undefined") {
    requestBody.timestamp = Math.floor(Date.now() / 1000)
}
```

The assignment mutates the caller's own object; in this functional model
the returned record is the caller-visible state of that object after the
call.  `now` stands for `Math.floor(Date.now() / 1000)`. -/

/-- A caller-supplied request body: the method, the optional `timestamp`
field, and the remaining caller-supplied fields (opaque key/value pairs
that `sendMessage` never touches). -/
structure RequestBody where
  method : String
  timestamp : Option Nat
  extra : List (String × String)
deriving DecidableEq

/-- The timestamp-attachment step of `DVoteGateway.sendMessage`: assign the
current Unix time when the field is absent, leave the body untouched
otherwise. -/
def attachTimestamp (now : Nat) (b : RequestBody) : RequestBody :=
  match b.timestamp with
  | none => { b with timestamp := some now }
  | some _ => b

/-! ## JSON-body signing (util/json-sign.ts)

Modelled from the spec: the module `util/json-sign.ts` (`signJsonBody`,
`isSignatureValid`, and the canonicalization that recursively sorts object
keys) is referenced by src/net/gateway.ts but its source is not part of the
snapshot.  Following the spec — "sign(body, key): canonicalizes body
(recursively sort container keys, stable array order) then produces a
signature over the canonical bytes using the caller's private credential"
and "verify(signature, publicKey, body): recomputes the canonical bytes and
checks the signature validates against publicKey" — we model:

* JSON-like values as the inductive `JVal`;
* canonicalization as `canon`, which sorts every object's fields by key
  (insertion sort, hence stable) and keeps array order, recursively;
* the byte serialization of a canonical value and the ECDSA primitive
  abstractly: serialization of canonical values is deterministic and
  injective and the signature scheme verifies exactly the signed bytes
  under the signer's key, so a signature is represented by the signer's
  public key paired with the canonical value that was signed. -/

/-- A JSON-like value. -/
inductive JVal where
  | null
  | bool (b : Bool)
  | num (n : Int)
  | str (s : String)
  | arr (elems : List JVal)
  | obj (fields : List (String × JVal))

mutual

/-- Structural equality test on JSON values (`DecidableEq` cannot be
derived for this nested inductive; `beqV_iff_eq` below shows this test
decides equality). -/
def beqV : JVal → JVal → Bool
  | .null, .null => true
  | .bool a, .bool b => a == b
  | .num a, .num b => a == b
  | .str a, .str b => a == b
  | .arr xs, .arr ys => beqVList xs ys
  | .obj fs, .obj gs => beqVFields fs gs
  | _, _ => false

/-- Pointwise `beqV` on lists of values. -/
def beqVList : List JVal → List JVal → Bool
  | [], [] => true
  | x :: xs, y :: ys => beqV x y && beqVList xs ys
  | _, _ => false

/-- Pointwise `beqV` on field lists. -/
def beqVFields : List (String × JVal) → List (String × JVal) → Bool
  | [], [] => true
  | (k, v) :: ps, (k2, v2) :: qs => k == k2 && beqV v v2 && beqVFields ps qs
  | _, _ => false

end

/-- Key order used to sort an object's fields. -/
def keyLE (a b : String × JVal) : Prop := a.1 ≤ b.1

instance : DecidableRel keyLE := fun a b => inferInstanceAs (Decidable (a.1 ≤ b.1))

instance : IsTotal (String × JVal) keyLE := ⟨fun a b => le_total a.1 b.1⟩

instance : IsTrans (String × JVal) keyLE := ⟨fun _ _ _ h h2 => le_trans h h2⟩

mutual

/-- Canonicalization: recursively sort every object's fields by key, keep
array order. -/
def canon : JVal → JVal
  | .null => .null
  | .bool b => .bool b
  | .num n => .num n
  | .str s => .str s
  | .arr elems => .arr (canonList elems)
  | .obj fields => .obj (List.insertionSort keyLE (canonFields fields))

/-- Canonicalize each element of an array, in order. -/
def canonList : List JVal → List JVal
  | [] => []
  | v :: vs => canon v :: canonList vs

/-- Canonicalize the value of each field, keeping the field order (the
subsequent key sort is stable). -/
def canonFields : List (String × JVal) → List (String × JVal)
  | [] => []
  | (k, v) :: fs => (k, canon v) :: canonFields fs

end

/-- The signing credential: only the public key it determines is relevant
to the model. -/
structure SigWallet where
  publicKey : String
deriving DecidableEq

/-- A signature: the signer's public key together with the canonical value
whose (injectively serialized) bytes were signed. -/
structure JsonSig where
  signer : String
  payload : JVal

/-- Modelled from the spec: `signJsonBody(body, wallet)` — canonicalize the
body and sign the canonical bytes with the wallet's credential. -/
def signJsonBody (body : JVal) (w : SigWallet) : JsonSig :=
  { signer := w.publicKey, payload := canon body }

/-- Modelled from the spec: `isSignatureValid(signature, publicKey, body)`
— recompute the canonical bytes of `body` and check that the signature
validates against `publicKey`; returns false (never throws) otherwise. -/
def isSignatureValid (sig : JsonSig) (publicKey : String) (body : JVal) : Bool :=
  sig.signer == publicKey && beqV sig.payload (canon body)

mutual

/-- Two JSON values differ only in object key order: equal leaves, arrays
pointwise related in order, and objects whose field lists agree up to a
permutation (with duplicate-free keys on the left, as JSON objects have). -/
def KeyPermV : JVal → JVal → Prop
  | .null, .null => True
  | .bool a, .bool b => a = b
  | .num a, .num b => a = b
  | .str a, .str b => a = b
  | .arr xs, .arr ys => KeyPermList xs ys
  | .obj fs, .obj gs =>
    (fs.map Prod.fst).Nodup ∧ ∃ gs0, KeyPermFields fs gs0 ∧ gs0.Perm gs
  | _, _ => False

/-- Pointwise `KeyPermV` on arrays. -/
def KeyPermList : List JVal → List JVal → Prop
  | [], [] => True
  | x :: xs, y :: ys => KeyPermV x y ∧ KeyPermList xs ys
  | _, _ => False

/-- Pointwise relation on field lists: equal keys, `KeyPermV`-related
values. -/
def KeyPermFields : List (String × JVal) → List (String × JVal) → Prop
  | [], [] => True
  | (k, v) :: ps, (k2, v2) :: qs => k = k2 ∧ KeyPermV v v2 ∧ KeyPermFields ps qs
  | _, _ => False

end

/-! ## Concrete values used by the witnesses -/

/-- The spec's canonicalization example, first ordering: `{b:1,a:2}`. -/
def exampleBodyBA : JVal := .obj [("b", .num 1), ("a", .num 2)]

/-- The spec's canonicalization example, second ordering: `{a:2,b:1}`. -/
def exampleBodyAB : JVal := .obj [("a", .num 2), ("b", .num 1)]

/-- The example body with the value of field `a` mutated. -/
def exampleBodyMutated : JVal := .obj [("a", .num 3), ("b", .num 1)]

/-- A concrete signing credential. -/
def exampleWallet : SigWallet := { publicKey := "0x03abc" }

/-- A concrete request body used by the C10 witness. -/
def exampleRequestBody : RequestBody :=
  { method := "getProcessList", timestamp := none, extra := [("entityId", "0x42")] }

/-- The C10 witness body after the timestamp attachment. -/
def exampleRequestBodyStamped : RequestBody :=
  { method := "getProcessList", timestamp := some 1700000000, extra := [("entityId", "0x42")] }

/-- Witness gateway: census API, connected, requests fail with a transient
connection-reset message. -/
def gwFailTransient : PoolGateway :=
  { supportedApis := ["census"], isConnectedR := .ok true, connectR := .ok true,
    sendRequestR := fun _ => .error "read ECONNRESET" }

/-- Witness gateway: census API, connected, requests succeed with payload 7. -/
def gwOk7 : PoolGateway :=
  { supportedApis := ["census"], isConnectedR := .ok true, connectR := .ok true,
    sendRequestR := fun _ => .ok 7 }

/-- Witness gateway: census API, connected, requests succeed with payload 8. -/
def gwOk8 : PoolGateway :=
  { supportedApis := ["census"], isConnectedR := .ok true, connectR := .ok true,
    sendRequestR := fun _ => .ok 8 }

/-- Witness gateway: vote API only (no census methods), connected. -/
def gwVoteOnly : PoolGateway :=
  { supportedApis := ["vote"], isConnectedR := .ok true, connectR := .ok true,
    sendRequestR := fun _ => .ok 9 }

/-- Witness gateway: census API, not connected and failing to connect. -/
def gwDown : PoolGateway :=
  { supportedApis := ["census"], isConnectedR := .error "Connection closed",
    connectR := .error "Connection closed", sendRequestR := fun _ => .error "down" }

/-- A concrete `dvoteApis` table for the witnesses: the census API carries
the census methods, the vote API one vote method. -/
def dvDemo : String → List String := fun api =>
  if api = "census" then ["addClaimBulk", "publishCensus", "getRoot", "genProof"]
  else if api = "vote" then ["submitEnvelope"]
  else []

/-- Witness pool state for the sequential-method claim: transiently failing
head, healthy tail. -/
def stSeq : PoolState := { pool := [gwFailTransient, gwOk7], errorCount := 0, refreshPoolCount := 0 }

/-- Witness pool of 3 for the rotate-and-retry claim: gateway 0 fails
transiently, gateways 1-2 succeed. -/
def stTransient3 : PoolState :=
  { pool := [gwFailTransient, gwOk7, gwOk8], errorCount := 0, refreshPoolCount := 0 }

/-- Witness pool of 3 for the capability-gating claim: the head does not
serve the census API. -/
def stVoteFirst : PoolState :=
  { pool := [gwVoteOnly, gwOk7, gwOk8], errorCount := 0, refreshPoolCount := 0 }

/-- Witness pool state with `errorCount` above the pool length. -/
def stOverErrors : PoolState := { pool := [gwOk7], errorCount := 2, refreshPoolCount := 0 }

/-- Witness pool state for a plain rotation: the gateway behind the head is
connected. -/
def stRotate : PoolState :=
  { pool := [gwDown, gwOk7, gwOk8], errorCount := 1, refreshPoolCount := 0 }

/-- Witness pool state whose rotation lands on a dead head, forcing a
second shift. -/
def stDoubleShift : PoolState :=
  { pool := [gwOk8, gwDown, gwOk7], errorCount := 0, refreshPoolCount := 0 }

/-- Witness pool state at the refresh bound. -/
def stRefreshMax : PoolState := { pool := [], errorCount := 0, refreshPoolCount := 10 }

/-- Witness pool state before a successful refresh. -/
def stRefreshOk : PoolState := { pool := [gwDown], errorCount := 5, refreshPoolCount := 0 }

/-- Witness request with a sequential method. -/
def reqAddClaimBulk : PoolReq := { method := "addClaimBulk" }

/-- Witness request with a plain census method (neither skip-listed nor
sequential). -/
def reqGenProof : PoolReq := { method := "genProof" }

/-- A concrete stand-in for the id derivation
`rand => utils.keccak256('0x' + rand).substr(2)`: an arbitrary injective
deterministic function whose output never equals its input, which is the
only property of the real keccak-based derivation the collision analysis
uses (the real output is 64 hex characters while `rand` is the 13-digit
hex fraction of `Math.random()`). -/
def demoHash : String → String := fun r => "hash:" ++ r

/-! ## Helper lemmas -/

/-- Structural strong induction for `JVal` with element-wise hypotheses for
the nested lists. -/
theorem JVal.inductionOn (P : JVal → Prop)
    (hnull : P .null) (hbool : ∀ b, P (.bool b)) (hnum : ∀ n, P (.num n))
    (hstr : ∀ s, P (.str s))
    (harr : ∀ elems, (∀ v ∈ elems, P v) → P (.arr elems))
    (hobj : ∀ fields, (∀ kv ∈ fields, P kv.2) → P (.obj fields)) :
    ∀ v, P v
  | .null => hnull
  | .bool b => hbool b
  | .num n => hnum n
  | .str s => hstr s
  | .arr elems =>
    harr elems (fun v _ => JVal.inductionOn P hnull hbool hnum hstr harr hobj v)
  | .obj fields =>
    hobj fields (fun kv _ => JVal.inductionOn P hnull hbool hnum hstr harr hobj kv.2)
termination_by v => sizeOf v
decreasing_by
  · have h1 := List.sizeOf_lt_of_mem (by assumption : v ∈ elems)
    simp only [JVal.arr.sizeOf_spec]
    omega
  · have h1 := List.sizeOf_lt_of_mem (by assumption : kv ∈ fields)
    obtain ⟨k, v⟩ := kv
    simp only [JVal.obj.sizeOf_spec, Prod.mk.sizeOf_spec] at h1 ⊢
    omega

/-- Pointwise lifting of the `beqV`-decides-equality property to array
element lists. -/
theorem beqVList_iff_eq :
    ∀ xs : List JVal, (∀ v ∈ xs, ∀ b, beqV v b = true ↔ v = b) →
      ∀ ys, beqVList xs ys = true ↔ xs = ys := by
  intro xs
  induction xs with
  | nil => intro _ ys; cases ys <;> simp [beqVList]
  | cons x xs ihl =>
    intro h ys
    cases ys with
    | nil => simp [beqVList]
    | cons y ys =>
      simp only [beqVList, Bool.and_eq_true, List.cons.injEq]
      rw [h x (List.mem_cons_self x xs) y,
        ihl (fun v hv b => h v (List.mem_cons_of_mem x hv) b) ys]

/-- Pointwise lifting of the `beqV`-decides-equality property to field
lists. -/
theorem beqVFields_iff_eq :
    ∀ fs : List (String × JVal), (∀ kv ∈ fs, ∀ b, beqV kv.2 b = true ↔ kv.2 = b) →
      ∀ gs, beqVFields fs gs = true ↔ fs = gs := by
  intro fs
  induction fs with
  | nil => intro _ gs; cases gs <;> simp [beqVFields]
  | cons p ps ihl =>
    intro h gs
    obtain ⟨k, v⟩ := p
    cases gs with
    | nil => simp [beqVFields]
    | cons q qs =>
      obtain ⟨k2, v2⟩ := q
      simp only [beqVFields, Bool.and_eq_true, List.cons.injEq, Prod.mk.injEq,
        beq_iff_eq]
      rw [h (k, v) (List.mem_cons_self (k, v) ps) v2,
        ihl (fun kv hkv b => h kv (List.mem_cons_of_mem (k, v) hkv) b) qs]

/-- `beqV` decides equality of JSON values. -/
theorem beqV_iff_eq : ∀ a b : JVal, beqV a b = true ↔ a = b := by
  intro a
  induction a using JVal.inductionOn with
  | hnull => intro b; cases b <;> simp [beqV]
  | hbool x => intro b; cases b <;> simp [beqV]
  | hnum x => intro b; cases b <;> simp [beqV]
  | hstr x => intro b; cases b <;> simp [beqV]
  | harr xs ih =>
    intro b
    cases b with
    | arr ys =>
      simp only [beqV, JVal.arr.injEq]
      exact beqVList_iff_eq xs ih ys
    | null => simp [beqV]
    | bool x => simp [beqV]
    | num x => simp [beqV]
    | str x => simp [beqV]
    | obj gs => simp [beqV]
  | hobj fs ih =>
    intro b
    cases b with
    | obj gs =>
      simp only [beqV, JVal.obj.injEq]
      exact beqVFields_iff_eq fs ih gs
    | null => simp [beqV]
    | bool x => simp [beqV]
    | num x => simp [beqV]
    | str x => simp [beqV]
    | arr ys => simp [beqV]

/-- Two lists of fields that are permutations of one another, both sorted
by key, with duplicate-free keys, are equal.  (`keyLE` is not antisymmetric
on pairs, so this needs the key-uniqueness hypothesis.) -/
theorem eq_of_perm_of_sorted_nodupKeys :
    ∀ l1 l2 : List (String × JVal), l1.Perm l2 → l1.Pairwise keyLE →
      l2.Pairwise keyLE → (l1.map Prod.fst).Nodup → l1 = l2 := by
  intro l1
  induction l1 with
  | nil =>
    intro l2 hp _ _ _
    exact List.Perm.nil_eq hp
  | cons a t1 ihl =>
    intro l2 hp hs1 hs2 hnd
    rw [List.map_cons] at hnd
    have hnd2 := List.nodup_cons.mp hnd
    cases l2 with
    | nil => exact absurd hp.symm (by simp)
    | cons b t2 =>
      have hab : a = b := by
        by_contra hne
        have hbmem : b ∈ a :: t1 := hp.mem_iff.mpr (List.mem_cons_self b t2)
        have hamem : a ∈ b :: t2 := hp.mem_iff.mp (List.mem_cons_self a t1)
        have hb1 : b ∈ t1 := by
          cases List.mem_cons.mp hbmem with
          | inl h => exact absurd h.symm hne
          | inr h => exact h
        have ha2 : a ∈ t2 := by
          cases List.mem_cons.mp hamem with
          | inl h => exact absurd h hne
          | inr h => exact h
        have h1 : keyLE a b := (List.pairwise_cons.mp hs1).1 b hb1
        have h2 : keyLE b a := (List.pairwise_cons.mp hs2).1 a ha2
        have hk : b.1 = a.1 := le_antisymm h2 h1
        have hmem : a.1 ∈ t1.map Prod.fst := List.mem_map.mpr ⟨b, hb1, hk⟩
        exact hnd2.1 hmem
      subst hab
      have hp2 : t1.Perm t2 := hp.cons_inv
      have hrec := ihl t2 hp2 (List.Pairwise.of_cons hs1) (List.Pairwise.of_cons hs2) hnd2.2
      rw [hrec]

/-- `canonFields` is the pointwise canonicalization of the values. -/
theorem canonFields_eq_map :
    ∀ fs, canonFields fs = fs.map (fun kv => (kv.1, canon kv.2)) := by
  intro fs
  induction fs with
  | nil => simp [canonFields]
  | cons p ps ih => obtain ⟨k, v⟩ := p; simp [canonFields, ih]

/-- `canonFields` keeps the keys, in order. -/
theorem map_fst_canonFields :
    ∀ fs, (canonFields fs).map Prod.fst = fs.map Prod.fst := by
  intro fs
  rw [canonFields_eq_map]
  simp

/-- Pointwise lifting of the canonicalization property to array element
lists. -/
theorem canonList_eq_of_keyPermList :
    ∀ xs : List JVal, (∀ v ∈ xs, ∀ b, KeyPermV v b → canon v = canon b) →
      ∀ ys, KeyPermList xs ys → canonList xs = canonList ys := by
  intro xs
  induction xs with
  | nil => intro _ ys h; cases ys <;> simp_all [KeyPermList]
  | cons x xs ihl =>
    intro hel ys h
    cases ys with
    | nil => simp [KeyPermList] at h
    | cons y ys =>
      obtain ⟨h1, h2⟩ := h
      simp only [canonList, List.cons.injEq]
      exact ⟨hel x (List.mem_cons_self x xs) y h1,
        ihl (fun v hv b => hel v (List.mem_cons_of_mem x hv) b) ys h2⟩

/-- Pointwise lifting of the canonicalization property to field lists. -/
theorem canonFields_eq_of_keyPermFields :
    ∀ fs : List (String × JVal), (∀ kv ∈ fs, ∀ b, KeyPermV kv.2 b → canon kv.2 = canon b) →
      ∀ gs, KeyPermFields fs gs → canonFields fs = canonFields gs := by
  intro fs
  induction fs with
  | nil => intro _ gs h; cases gs <;> simp_all [KeyPermFields]
  | cons p ps ihl =>
    intro hel gs h
    obtain ⟨k, v⟩ := p
    cases gs with
    | nil => simp [KeyPermFields] at h
    | cons q qs =>
      obtain ⟨k2, v2⟩ := q
      obtain ⟨hk, hv, hrest⟩ := h
      subst hk
      simp only [canonFields, List.cons.injEq, Prod.mk.injEq, true_and]
      exact ⟨hel (k, v) (List.mem_cons_self (k, v) ps) v2 hv,
        ihl (fun kv hkv b => hel kv (List.mem_cons_of_mem (k, v) hkv) b) qs hrest⟩

/-- Looking up the settled id after `settleAt` yields the settled state. -/
theorem lookup_settleAt (ps : List (String × PromiseSt)) (rid : String) (o : PromiseSt) :
    List.lookup rid (settleAt ps rid o) = (List.lookup rid ps).map (fun p => settle p o) := by
  induction ps with
  | nil => simp [settleAt]
  | cons kv ps ih =>
    obtain ⟨k, v⟩ := kv
    simp only [settleAt] at ih ⊢
    rw [List.map_cons]
    by_cases h : k = rid
    · subst h
      rw [if_pos rfl]
      simp [List.lookup]
    · rw [if_neg h]
      have hbeq2 : (rid == k) = false := by simp [Ne.symm h]
      simp only [List.lookup, hbeq2]
      exact ih

/-- Canonicalization identifies values that differ only in object key
order. -/
theorem canon_eq_of_keyPermV : ∀ a b : JVal, KeyPermV a b → canon a = canon b := by
  intro a
  induction a using JVal.inductionOn with
  | hnull => intro b h; cases b <;> simp_all [KeyPermV]
  | hbool x => intro b h; cases b <;> simp_all [KeyPermV]
  | hnum x => intro b h; cases b <;> simp_all [KeyPermV]
  | hstr x => intro b h; cases b <;> simp_all [KeyPermV]
  | harr xs ih =>
    intro b h
    cases b <;> simp only [KeyPermV] at h
    case arr ys =>
      simp only [canon, JVal.arr.injEq]
      exact canonList_eq_of_keyPermList xs ih ys h
  | hobj fs ih =>
    intro b h
    cases b <;> simp only [KeyPermV] at h
    case obj gs =>
      obtain ⟨hnd, gs0, hkp, hperm⟩ := h
      have hfields : canonFields fs = canonFields gs0 :=
        canonFields_eq_of_keyPermFields fs ih gs0 hkp
      have p3 : (canonFields gs0).Perm (canonFields gs) := by
        rw [canonFields_eq_map, canonFields_eq_map]
        exact hperm.map _
      simp only [canon, JVal.obj.injEq]
      apply eq_of_perm_of_sorted_nodupKeys
      · refine ((List.perm_insertionSort keyLE _).trans ?_).trans
          (List.perm_insertionSort keyLE _).symm
        rw [hfields]
        exact p3
      · exact List.sorted_insertionSort keyLE _
      · exact List.sorted_insertionSort keyLE _
      · have h1 : ((List.insertionSort keyLE (canonFields fs)).map Prod.fst).Perm
            ((canonFields fs).map Prod.fst) :=
          (List.perm_insertionSort keyLE _).map _
        rw [map_fst_canonFields] at h1
        exact (List.Perm.nodup_iff h1).mpr hnd

/-- When the rotation is allowed (`errorCount` within the pool length) and
the gateway behind the head reports itself connected, `shiftGateway`
rotates the head to the tail and resolves `true` with no further state
change. -/
theorem shiftGateway_rotates_to_connected_head :
    ∀ (d : Except String (List PoolGateway)) (fuel : Nat) (s : PoolState)
      (g0 g1 : PoolGateway) (rest : List PoolGateway),
      s.pool = g0 :: g1 :: rest →
      s.errorCount ≤ s.pool.length →
      g1.isConnectedR = .ok true →
      shiftGateway d (fuel + 1 + 1) s = (.ok true, { s with pool := g1 :: (rest ++ [g0]) }) := by
  intro d fuel s g0 g1 rest hpool herr hconn
  have hact : activeGateway s = .ok g0 := by simp [activeGateway, hpool]
  have hrot : rotate s.pool = g1 :: (rest ++ [g0]) := by simp [rotate, hpool]
  have hact2 : activeGateway { s with pool := rotate s.pool } = .ok g1 := by
    simp [activeGateway, hrot]
  have hconn2 : connect d (fuel + 1) { s with pool := rotate s.pool }
      = (.ok true, { s with pool := rotate s.pool }) := by
    simp [connect, hact2, hconn]
  simp only [shiftGateway, hact, not_lt.mpr herr, if_false, hconn2]
  rw [hrot]

/-! ## Claim theorems -/

/-- C8: JSON-body signing is canonicalization-invariant: signing is a
deterministic function of the canonical form of the body and the key, two
bodies that differ only in object key order produce identical signatures,
and verification rejects any mutation that changes any field (any body
whose canonical form differs from the signed one). -/
theorem signing_canonicalization_invariant :
    (∀ (w : SigWallet) (a b : JVal), canon a = canon b →
      signJsonBody a w = signJsonBody b w)
    ∧ (∀ (w : SigWallet) (a b : JVal), KeyPermV a b →
      signJsonBody a w = signJsonBody b w)
    ∧ (∀ (w : SigWallet) (a b : JVal), canon a ≠ canon b →
      isSignatureValid (signJsonBody a w) w.publicKey b = false) := by
  refine ⟨?_, ?_, ?_⟩
  · intro w a b h
    simp [signJsonBody, h]
  · intro w a b h
    simp [signJsonBody, canon_eq_of_keyPermV a b h]
  · intro w a b h
    have hb : beqV (canon a) (canon b) = false := by
      cases hb : beqV (canon a) (canon b)
      · rfl
      · exact absurd ((beqV_iff_eq _ _).mp hb) h
    simp [isSignatureValid, signJsonBody, hb]

/-- Witness for C8: signing `{b:1,a:2}` and `{a:2,b:1}` with the same key
yields the same signature, and the signature of `{b:1,a:2}` does not verify
against `{a:3,b:1}`. -/
theorem signing_canonicalization_invariant_witness :
    signJsonBody exampleBodyBA exampleWallet = signJsonBody exampleBodyAB exampleWallet
    ∧ isSignatureValid (signJsonBody exampleBodyBA exampleWallet)
        exampleWallet.publicKey exampleBodyMutated = false := by
  constructor
  · apply signing_canonicalization_invariant.2.1
    show KeyPermV exampleBodyBA exampleBodyAB
    simp only [exampleBodyBA, exampleBodyAB, KeyPermV]
    refine ⟨by decide, [("b", JVal.num 1), ("a", JVal.num 2)], ?_, ?_⟩
    · simp [KeyPermFields, KeyPermV]
    · exact List.Perm.swap ("a", JVal.num 2) ("b", JVal.num 1) []
  · apply signing_canonicalization_invariant.2.2
    show canon exampleBodyBA ≠ canon exampleBodyMutated
    have h1 : canon exampleBodyBA = .obj [("a", .num 2), ("b", .num 1)] := by
      simp [exampleBodyBA, canon, canonFields, List.insertionSort, List.orderedInsert, keyLE]
      decide
    have h2 : canon exampleBodyMutated = .obj [("a", .num 3), ("b", .num 1)] := by
      simp [exampleBodyMutated, canon, canonFields, List.insertionSort, List.orderedInsert, keyLE]
      decide
    rw [h1, h2]
    intro h
    simp at h

/-- C1 (code bug): the regeneration guard of the correlation-id loop
compares the pending ids against the raw `rand` draw instead of the derived
`requestId = keccak256('0x'+rand).substr(2)`.  Since a pending id is always
a keccak-derived string and never equal to a raw draw (`keccak rand ≠
rand`), the guard never fires: when the random source repeats a draw whose
derived id is still pending, the loop accepts the colliding id instead of
regenerating — the chosen id is already a pending id.  The guard the spec
describes (`specGenerateRequestId`) regenerates on the same input and
returns a fresh, distinct id. -/
theorem generateRequestId_admits_pending_collision :
    generateRequestId demoHash [demoHash "ab"] ["ab", "cd"] = some (demoHash "ab")
    ∧ demoHash "ab" ∈ [demoHash "ab"]
    ∧ specGenerateRequestId demoHash [demoHash "ab"] ["ab", "cd"] = some (demoHash "cd")
    ∧ demoHash "cd" ∉ [demoHash "ab"] := by
  refine ⟨?_, by decide, ?_, by decide⟩
  · simp [generateRequestId, demoHash]
  · simp [specGenerateRequestId, demoHash]

/-- C2: when a request's timeout fires while the request is still pending,
its promise is rejected with the timeout error and its entry leaves the
pending-request list; a response carrying the same correlation id that
arrives afterwards is a no-op — the connection state (and hence the
promise's settlement) is unchanged, so the promise is never resolved or
rejected a second time. -/
theorem sendMessage_timeout_finalization :
    ∀ (c : WsConn) (rid : String),
      rid ∈ c.requestList →
      List.lookup rid c.promises = some PromiseSt.pending →
      List.lookup rid (fireTimeout c rid).promises
          = some (PromiseSt.rejected "Request timed out")
      ∧ rid ∉ (fireTimeout c rid).requestList
      ∧ gotWebSocketMessage (fireTimeout c rid) rid = fireTimeout c rid := by
  intro c rid _ hprom
  refine ⟨?_, ?_, ?_⟩
  · show List.lookup rid (settleAt c.promises rid (.rejected "Request timed out"))
        = some (PromiseSt.rejected "Request timed out")
    rw [lookup_settleAt, hprom]
    rfl
  · intro hmem
    simp only [fireTimeout, List.mem_filter] at hmem
    simp at hmem
  · have hfind : (fireTimeout c rid).requestList.find? (fun r => r == rid) = none := by
      rw [List.find?_eq_none]
      intro x hx
      simp only [fireTimeout, List.mem_filter] at hx
      simp only [bne_iff_ne, ne_eq, decide_eq_true_eq] at hx
      simp [hx.2]
    simp [gotWebSocketMessage, hfind]

/-- Witness for C2 at a connection with one pending request. -/
theorem sendMessage_timeout_finalization_witness :
    List.lookup "aa" (fireTimeout ⟨["aa"], [("aa", PromiseSt.pending)]⟩ "aa").promises
        = some (PromiseSt.rejected "Request timed out")
    ∧ "aa" ∉ (fireTimeout ⟨["aa"], [("aa", PromiseSt.pending)]⟩ "aa").requestList
    ∧ gotWebSocketMessage (fireTimeout ⟨["aa"], [("aa", PromiseSt.pending)]⟩ "aa") "aa"
        = fireTimeout ⟨["aa"], [("aa", PromiseSt.pending)]⟩ "aa" :=
  sendMessage_timeout_finalization ⟨["aa"], [("aa", PromiseSt.pending)]⟩ "aa"
    (by decide) (by decide)

/-- C9: `checkPing` resolves true exactly when one of the probes it
performs answers HTTP 200 with body "pong": the HTTPS probe is consulted
first and decides positively on 200/"pong"; the plain-HTTP probe is
consulted only when the HTTPS probe resolved without being a 200/"pong"
success; and when neither probe succeeds the function resolves false
(it is total — the surrounding try/catch converts thrown errors into
`false` rather than propagating them). -/
theorem checkPing_spec :
    ∀ a b : HttpAttempt,
      (checkPing a b = true ↔
        (isPongResponse a = true ∨ (httpFallbackTried a = true ∧ isPongResponse b = true)))
      ∧ (httpFallbackTried a = true → isPongResponse a = false)
      ∧ (isPongResponse a = false ∧ isPongResponse b = false → checkPing a b = false) := by
  intro a b
  cases a with
  | thrown => simp [checkPing, isPongResponse, httpFallbackTried]
  | ok s d =>
    cases b with
    | thrown =>
      by_cases h : (s == 200 && d == "pong") = true <;>
        simp [checkPing, isPongResponse, httpFallbackTried, h]
    | ok s2 d2 =>
      by_cases h : (s == 200 && d == "pong") = true <;>
        by_cases h2 : (s2 == 200 && d2 == "pong") = true <;>
        simp [checkPing, isPongResponse, httpFallbackTried, h, h2]

/-- Witness for C9: an HTTPS probe resolving 500/"x" and an HTTP fallback
resolving 200/"pong". -/
theorem checkPing_spec_witness :
    (checkPing (.ok 500 "x") (.ok 200 "pong") = true ↔
      (isPongResponse (.ok 500 "x") = true ∨
        (httpFallbackTried (.ok 500 "x") = true ∧ isPongResponse (.ok 200 "pong") = true)))
    ∧ (httpFallbackTried (.ok 500 "x") = true → isPongResponse (.ok 500 "x") = false)
    ∧ (isPongResponse (.ok 500 "x") = false ∧ isPongResponse (.ok 200 "pong") = false →
        checkPing (.ok 500 "x") (.ok 200 "pong") = false) :=
  checkPing_spec (.ok 500 "x") (.ok 200 "pong")

/-- C10: the timestamp-attachment step of `sendMessage` operates on the
caller's own body: when the body carries no `timestamp`, the current Unix
time is assigned to that field and every other caller-supplied field
(`method` and the remaining fields) is left unchanged; when a timestamp is
already present the body is left entirely untouched. -/
theorem sendMessage_attaches_timestamp :
    ∀ (now : Nat) (b : RequestBody),
      (b.timestamp = none →
        attachTimestamp now b =
          { method := b.method, timestamp := some now, extra := b.extra })
      ∧ (∀ t, b.timestamp = some t → attachTimestamp now b = b) := by
  intro now b
  obtain ⟨m, ts, ex⟩ := b
  constructor
  · intro h
    simp only at h
    subst h
    simp [attachTimestamp]
  · intro t h
    simp only at h
    subst h
    simp [attachTimestamp]

/-- Witness for C10 at a concrete body without a timestamp. -/
theorem sendMessage_attaches_timestamp_witness :
    attachTimestamp 1700000000 exampleRequestBody = exampleRequestBodyStamped :=
  (sendMessage_attaches_timestamp 1700000000 exampleRequestBody).1 rfl

/-- One unfolding step of the pool's `sendRequest`: the active gateway does
not support the method, so `errorCount` is incremented, the pool shifts,
and the request is retried. -/
theorem sendRequest_step_unsupported :
    ∀ (d : Except String (List PoolGateway)) (dv : String → List String) (fuel : Nat)
      (body : PoolReq) (s : PoolState) (g0 : PoolGateway),
      activeGateway s = .ok g0 →
      isMethodSupported dv g0.supportedApis body.method = false →
      sendRequest d dv (fuel + 1) body s =
        (match shiftGateway d fuel { s with errorCount := s.errorCount + 1 } with
          | (.error e, s2) => (.error e, s2)
          | (.ok _, s2) => sendRequest d dv fuel body s2) := by
  intro d dv fuel body s g0 hact hsup
  simp [sendRequest, hact, hsup]

/-- One unfolding step of the pool's `sendRequest`: the active gateway
supports the method and answers successfully, so both counters reset. -/
theorem sendRequest_step_success :
    ∀ (d : Except String (List PoolGateway)) (dv : String → List String) (fuel : Nat)
      (body : PoolReq) (s : PoolState) (g0 : PoolGateway) (resp : Nat),
      activeGateway s = .ok g0 →
      isMethodSupported dv g0.supportedApis body.method = true →
      g0.sendRequestR body = .ok resp →
      sendRequest d dv (fuel + 1) body s =
        (.ok resp, { s with errorCount := 0, refreshPoolCount := 0 }) := by
  intro d dv fuel body s g0 resp hact hsup hok
  simp [sendRequest, hact, hsup, hok]

/-- One unfolding step of the pool's `sendRequest`: sequential-method
failure — reject with the fatal wrapper, state untouched. -/
theorem sendRequest_step_sequential :
    ∀ (d : Except String (List PoolGateway)) (dv : String → List String) (fuel : Nat)
      (body : PoolReq) (s : PoolState) (g0 : PoolGateway) (e : String),
      activeGateway s = .ok g0 →
      isMethodSupported dv g0.supportedApis body.method = true →
      g0.sendRequestR body = .error e →
      body.method ∉ ERROR_SKIP_METHODS →
      body.method ∈ SEQUENTIAL_METHODS →
      sendRequest d dv (fuel + 1) body s =
        (.error ("Connection to gateway lost. The process needs to be reinitiated. Reason:" ++ e),
          s) := by
  intro d dv fuel body s g0 e hact hsup hfail hskip hseq
  simp [sendRequest, hact, hsup, hfail, hskip, hseq]

/-- One unfolding step of the pool's `sendRequest`: a failure whose message
matches a `GATEWAY_UPDATE_ERRORS` pattern (and is neither skip-listed nor
sequential) — increment `errorCount`, shift, retry. -/
theorem sendRequest_step_transient :
    ∀ (d : Except String (List PoolGateway)) (dv : String → List String) (fuel : Nat)
      (body : PoolReq) (s : PoolState) (g0 : PoolGateway) (e : String),
      activeGateway s = .ok g0 →
      isMethodSupported dv g0.supportedApis body.method = true →
      g0.sendRequestR body = .error e →
      body.method ∉ ERROR_SKIP_METHODS →
      body.method ∉ SEQUENTIAL_METHODS →
      (∃ msg ∈ GATEWAY_UPDATE_ERRORS, strIncludes e msg = true) →
      sendRequest d dv (fuel + 1) body s =
        (match shiftGateway d fuel { s with errorCount := s.errorCount + 1 } with
          | (.error e2, s2) => (.error e2, s2)
          | (.ok _, s2) => sendRequest d dv fuel body s2) := by
  intro d dv fuel body s g0 e hact hsup hfail hskip hseq hupd
  simp [sendRequest, hact, hsup, hfail, hskip, hseq, hupd]

/-- C3: when the method is sequential (`addClaimBulk`, `publishCensus`) and
the active gateway's request rejects — with any message, including one that
would otherwise classify as transient — the pool rejects immediately with
the fatal wrapper instructing that the process be reinitiated, and the pool
state (hence the set of gateways consulted) is unchanged: no other gateway
is attempted. -/
theorem sendRequest_sequential_no_retry :
    ∀ (d : Except String (List PoolGateway)) (dv : String → List String) (fuel : Nat)
      (body : PoolReq) (s : PoolState) (g0 : PoolGateway) (rest : List PoolGateway)
      (e : String),
      s.pool = g0 :: rest →
      body.method ∈ SEQUENTIAL_METHODS →
      isMethodSupported dv g0.supportedApis body.method = true →
      g0.sendRequestR body = .error e →
      sendRequest d dv (fuel + 1) body s =
        (.error ("Connection to gateway lost. The process needs to be reinitiated. Reason:" ++ e),
          s) := by
  intro d dv fuel body s g0 rest e hpool hseq hsup hfail
  have hact : activeGateway s = .ok g0 := by simp [activeGateway, hpool]
  have hmeth : body.method = "addClaimBulk" ∨ body.method = "publishCensus" := by
    simpa [SEQUENTIAL_METHODS] using hseq
  have hskip : body.method ∉ ERROR_SKIP_METHODS := by
    rcases hmeth with h | h <;> simp [ERROR_SKIP_METHODS, h]
  exact sendRequest_step_sequential d dv fuel body s g0 e hact hsup hfail hskip hseq

/-- Witness for C3: a two-gateway pool whose head supports `addClaimBulk`
but fails with the (transient-looking) message "read ECONNRESET"; the
second gateway is healthy yet never consulted. -/
theorem sendRequest_sequential_no_retry_witness :
    sendRequest (.error "nodisc") dvDemo (0 + 1) reqAddClaimBulk stSeq =
      (.error ("Connection to gateway lost. The process needs to be reinitiated. Reason:"
        ++ "read ECONNRESET"), stSeq) :=
  sendRequest_sequential_no_retry (.error "nodisc") dvDemo 0 reqAddClaimBulk stSeq
    gwFailTransient [gwOk7] "read ECONNRESET" rfl (by decide) (by decide) rfl

/-- C4: when the method is neither skip-listed nor sequential and the
active gateway fails with a message matching a transient pattern
(`GATEWAY_UPDATE_ERRORS`: a timeout, "read ECONNRESET", or the
census-not-found replication-lag message), the pool increments
`errorCount`, shifts the failed head to the tail, and retries the same
request on the new active gateway: with the next gateway healthy the caller
receives that gateway's result, the new active gateway is that gateway, and
the success resets the counters. -/
theorem sendRequest_transient_rotate_retry :
    ∀ (d : Except String (List PoolGateway)) (dv : String → List String) (fuel : Nat)
      (body : PoolReq) (s : PoolState) (g0 g1 : PoolGateway) (rest : List PoolGateway)
      (e : String) (resp : Nat),
      s.pool = g0 :: g1 :: rest →
      isMethodSupported dv g0.supportedApis body.method = true →
      isMethodSupported dv g1.supportedApis body.method = true →
      g0.sendRequestR body = .error e →
      body.method ∉ ERROR_SKIP_METHODS →
      body.method ∉ SEQUENTIAL_METHODS →
      (∃ msg ∈ GATEWAY_UPDATE_ERRORS, strIncludes e msg = true) →
      g1.isConnectedR = .ok true →
      g1.sendRequestR body = .ok resp →
      s.errorCount + 1 ≤ s.pool.length →
      sendRequest d dv (fuel + 1 + 1 + 1) body s =
        (.ok resp, { pool := g1 :: (rest ++ [g0]), errorCount := 0, refreshPoolCount := 0 }) := by
  intro d dv fuel body s g0 g1 rest e resp hpool hsup0 hsup1 hfail hskip hseq hupd hconn hok herr
  have hact : activeGateway s = .ok g0 := by simp [activeGateway, hpool]
  rw [sendRequest_step_transient d dv (fuel + 1 + 1) body s g0 e hact hsup0 hfail hskip hseq hupd]
  rw [shiftGateway_rotates_to_connected_head d fuel { s with errorCount := s.errorCount + 1 }
    g0 g1 rest (by simpa using hpool) (by simpa using herr) hconn]
  show sendRequest d dv (fuel + 1 + 1) body
      { s with pool := g1 :: (rest ++ [g0]), errorCount := s.errorCount + 1 } = _
  have hact2 : activeGateway
      { s with pool := g1 :: (rest ++ [g0]), errorCount := s.errorCount + 1 } = .ok g1 := by
    simp [activeGateway]
  rw [sendRequest_step_success d dv (fuel + 1) body
    { s with pool := g1 :: (rest ++ [g0]), errorCount := s.errorCount + 1 } g1 resp
    hact2 hsup1 hok]

/-- Witness for C4, the spec's 3-gateway scenario: gateway 0 fails with
"read ECONNRESET", gateway 1 succeeds with payload 7; the caller receives 7
and gateway 1 is the new head. -/
theorem sendRequest_transient_rotate_retry_witness :
    sendRequest (.error "nodisc") dvDemo (0 + 1 + 1 + 1) reqGenProof stTransient3 =
      (.ok 7, { pool := [gwOk7, gwOk8, gwFailTransient], errorCount := 0, refreshPoolCount := 0 }) :=
  sendRequest_transient_rotate_retry (.error "nodisc") dvDemo 0 reqGenProof stTransient3
    gwFailTransient gwOk7 [gwOk8] "read ECONNRESET" 7 rfl (by decide) (by decide) rfl
    (by decide) (by decide) (by decide) rfl rfl (by decide)

/-- C5: when the active gateway does not support the request's method, the
pool does not send the request to it: it increments `errorCount`, shifts to
the next gateway, and retries recursively; with the next gateway supporting
the method and healthy, the caller receives its result and no capability
error surfaces.  (The conclusion holds for every behaviour of the head
gateway's request oracle, so the head is never consulted.) -/
theorem sendRequest_unsupported_rotate_retry :
    ∀ (d : Except String (List PoolGateway)) (dv : String → List String) (fuel : Nat)
      (body : PoolReq) (s : PoolState) (g0 g1 : PoolGateway) (rest : List PoolGateway)
      (resp : Nat),
      s.pool = g0 :: g1 :: rest →
      isMethodSupported dv g0.supportedApis body.method = false →
      isMethodSupported dv g1.supportedApis body.method = true →
      g1.isConnectedR = .ok true →
      g1.sendRequestR body = .ok resp →
      s.errorCount + 1 ≤ s.pool.length →
      sendRequest d dv (fuel + 1 + 1 + 1) body s =
        (.ok resp, { pool := g1 :: (rest ++ [g0]), errorCount := 0, refreshPoolCount := 0 }) := by
  intro d dv fuel body s g0 g1 rest resp hpool hsup0 hsup1 hconn hok herr
  have hact : activeGateway s = .ok g0 := by simp [activeGateway, hpool]
  rw [sendRequest_step_unsupported d dv (fuel + 1 + 1) body s g0 hact hsup0]
  rw [shiftGateway_rotates_to_connected_head d fuel { s with errorCount := s.errorCount + 1 }
    g0 g1 rest (by simpa using hpool) (by simpa using herr) hconn]
  show sendRequest d dv (fuel + 1 + 1) body
      { s with pool := g1 :: (rest ++ [g0]), errorCount := s.errorCount + 1 } = _
  have hact2 : activeGateway
      { s with pool := g1 :: (rest ++ [g0]), errorCount := s.errorCount + 1 } = .ok g1 := by
    simp [activeGateway]
  rw [sendRequest_step_success d dv (fuel + 1) body
    { s with pool := g1 :: (rest ++ [g0]), errorCount := s.errorCount + 1 } g1 resp
    hact2 hsup1 hok]

/-- Witness for C5: the head serves only the vote API, so the census method
`genProof` rotates to gateway 1 without any capability error surfacing, and
gateway 1 answers 7. -/
theorem sendRequest_unsupported_rotate_retry_witness :
    sendRequest (.error "nodisc") dvDemo (0 + 1 + 1 + 1) reqGenProof stVoteFirst =
      (.ok 7, { pool := [gwOk7, gwOk8, gwVoteOnly], errorCount := 0, refreshPoolCount := 0 }) :=
  sendRequest_unsupported_rotate_retry (.error "nodisc") dvDemo 0 reqGenProof stVoteFirst
    gwVoteOnly gwOk7 [gwOk8] 7 rfl (by decide) (by decide) rfl rfl (by decide)

/-- C6: the shift operation (1) performs a full refresh instead of rotating
when `errorCount` strictly exceeds the pool length; (2) otherwise rotates
the head to the tail and connects the new head, resolving true when the new
head reports itself connected; and (3) when connecting the new head fails,
shifts again — shown landing on the gateway after the failed one. -/
theorem shiftGateway_spec :
    ∀ (d : Except String (List PoolGateway)) (fuel : Nat) (s : PoolState),
      (s.pool ≠ [] → s.pool.length < s.errorCount →
        shiftGateway d (fuel + 1) s = refresh d fuel s)
      ∧ (∀ g0 g1 rest, s.pool = g0 :: g1 :: rest → s.errorCount ≤ s.pool.length →
          g1.isConnectedR = .ok true →
          shiftGateway d (fuel + 1 + 1) s =
            (.ok true, { s with pool := g1 :: (rest ++ [g0]) }))
      ∧ (∀ g0 g1 g2 rest e, s.pool = g0 :: g1 :: g2 :: rest →
          s.errorCount ≤ s.pool.length →
          g1.isConnectedR = .error e → g2.isConnectedR = .ok true →
          shiftGateway d (fuel + 1 + 1 + 1 + 1) s =
            (.ok true, { s with pool := g2 :: (rest ++ [g0, g1]) })) := by
  intro d fuel s
  refine ⟨?_, ?_, ?_⟩
  · intro hne hgt
    match hp : s.pool, hne with
    | g :: rest, _ =>
      have hact : activeGateway s = .ok g := by simp [activeGateway, hp]
      simp [shiftGateway, hact, hgt]
  · intro g0 g1 rest hpool herr hconn
    exact shiftGateway_rotates_to_connected_head d fuel s g0 g1 rest hpool herr hconn
  · intro g0 g1 g2 rest e hpool herr hconn1 hconn2
    have hact : activeGateway s = .ok g0 := by simp [activeGateway, hpool]
    have hrot : rotate s.pool = g1 :: g2 :: (rest ++ [g0]) := by simp [rotate, hpool]
    have hlen : ({ s with pool := g1 :: g2 :: (rest ++ [g0]) } : PoolState).errorCount ≤
        ({ s with pool := g1 :: g2 :: (rest ++ [g0]) } : PoolState).pool.length := by
      simp [hpool] at herr ⊢
      omega
    have hshift2 := shiftGateway_rotates_to_connected_head d fuel
      { s with pool := g1 :: g2 :: (rest ++ [g0]) } g1 g2 (rest ++ [g0]) rfl hlen hconn2
    have hact1 : activeGateway { s with pool := g1 :: g2 :: (rest ++ [g0]) } = .ok g1 := by
      simp [activeGateway]
    have hconnFail : connect d (fuel + 1 + 1 + 1) { s with pool := g1 :: g2 :: (rest ++ [g0]) }
        = (.ok true, { s with pool := g2 :: ((rest ++ [g0]) ++ [g1]) }) := by
      simp only [connect, hact1, hconn1]
      exact hshift2
    have hfinal : (rest ++ [g0]) ++ [g1] = rest ++ [g0, g1] := by simp
    simp only [shiftGateway, hact, not_lt.mpr herr, if_false, hrot, hconnFail, hfinal]

/-- Witness for C6 at three concrete pools: one with too many errors (shift
escalates to refresh), one rotating onto a connected gateway, and one whose
rotation lands on a dead gateway and shifts a second time. -/
theorem shiftGateway_spec_witness :
    (shiftGateway (.error "nodisc") (5 + 1) stOverErrors =
      refresh (.error "nodisc") 5 stOverErrors)
    ∧ (shiftGateway (.error "nodisc") (0 + 1 + 1) stRotate =
      (.ok true, { stRotate with pool := [gwOk7, gwOk8, gwDown] }))
    ∧ (shiftGateway (.error "nodisc") (0 + 1 + 1 + 1 + 1) stDoubleShift =
      (.ok true, { stDoubleShift with pool := [gwOk7, gwOk8, gwDown] })) :=
  ⟨(shiftGateway_spec (.error "nodisc") 5 stOverErrors).1 (by simp [stOverErrors]) (by decide),
    (shiftGateway_spec (.error "nodisc") 0 stRotate).2.1 gwDown gwOk7 [gwOk8] rfl
      (by decide) rfl,
    (shiftGateway_spec (.error "nodisc") 0 stDoubleShift).2.2 gwOk8 gwDown gwOk7 []
      "Connection closed" rfl (by decide) rfl rfl⟩

/-- C7: every refresh call increments `refreshPoolCount` first; once the
incremented counter exceeds `MAX_POOL_REFRESH_COUNT` (10) the call rejects
with "No gateway currently available" without consulting discovery (the
outcome is the same for every discovery oracle `d`); a refresh within the
bound whose discovery returns a list with a connected head replaces the
pool contents with the discovered gateways and resets `errorCount` to 0. -/
theorem refresh_spec :
    ∀ (d : Except String (List PoolGateway)) (fuel : Nat) (s : PoolState),
      (MAX_POOL_REFRESH_COUNT < s.refreshPoolCount + 1 →
        refresh d (fuel + 1) s =
          (.error "No gateway currently available",
            { s with refreshPoolCount := s.refreshPoolCount + 1 }))
      ∧ (∀ (g : PoolGateway) (rest : List PoolGateway),
          s.refreshPoolCount + 1 ≤ MAX_POOL_REFRESH_COUNT →
          d = .ok (g :: rest) → g.isConnectedR = .ok true →
          refresh d (fuel + 1 + 1) s =
            (.ok true, { pool := g :: rest, errorCount := 0, refreshPoolCount := s.refreshPoolCount + 1 })) := by
  intro d fuel s
  constructor
  · intro hgt
    simp [refresh, hgt]
  · intro g rest hle hd hconn
    subst hd
    have hact : activeGateway { s with pool := g :: rest, refreshPoolCount := s.refreshPoolCount + 1 } = .ok g := by
      simp [activeGateway]
    have hconn2 : connect (.ok (g :: rest)) (fuel + 1)
        { s with pool := g :: rest, refreshPoolCount := s.refreshPoolCount + 1 } =
        (.ok true, { s with pool := g :: rest, refreshPoolCount := s.refreshPoolCount + 1 }) := by
      simp [connect, hact, hconn]
    simp [refresh, not_lt.mpr hle, hconn2]

/-- Witness for C7: a pool at the refresh bound fails closed for an
arbitrary discovery oracle, and a pool within the bound is replaced by the
discovered gateways with `errorCount` reset. -/
theorem refresh_spec_witness :
    (refresh (.error "ignored") (0 + 1) stRefreshMax =
      (.error "No gateway currently available", { stRefreshMax with refreshPoolCount := 11 }))
    ∧ (refresh (.ok [gwOk7]) (0 + 1 + 1) stRefreshOk =
      (.ok true, { pool := [gwOk7], errorCount := 0, refreshPoolCount := 1 })) :=
  ⟨(refresh_spec (.error "ignored") 0 stRefreshMax).1 (by decide),
    (refresh_spec (.ok [gwOk7]) 0 stRefreshOk).2 gwOk7 [] (by decide) rfl rfl⟩


end DvoteJs
